import Mathlib

/-!
Shallow embedding of the vmm-threads VMM core (src/src/main.rs) and proofs
about its claims: configuration constants, the constructor's error paths,
the vCPU setup, the code-loading copy, the run loop's exit dispatch, and
the cleanup/teardown behaviour.
-/

namespace VmmThreads

/-- Guest memory size from `Vmm::new`: `let mem_size = 16 * 1024 * 1024`. -/
def mem_size : Nat := 16 * 1024 * 1024

/-- Guest-physical load address from `Vmm::new`: `let guest_addr = 0x1000`. -/
def guest_addr : Nat := 0x1000

/-- Host page size (x86), used only to state page alignment. -/
def page_size : Nat := 4096

/-- Flag constant from kvm_bindings: bit 0, dirty-page logging. -/
def KVM_MEM_LOG_DIRTY_PAGES : Nat := 1

/-- Guest code from `setup_vcpu`: `let guest_code = &[0xeb, 0xfe]` (jmp to self). -/
def guest_code : List Nat := [0xEB, 0xFE]

/-- Offset at which `setup_vcpu` copies the code: the copy targets
`self.guest_mem` itself, i.e. byte offset 0 from the region's host base. -/
def code_offset : Nat := 0

/-- Embedding of `kvm_userspace_memory_region` (the fields the source sets). -/
structure MemRegion where
  slot : Nat
  flags : Nat
  guest_phys_addr : Nat
  memory_size : Nat
  userspace_addr : Nat
deriving DecidableEq

/-- The region `Vmm::new` registers, as a function of the host address
returned by mmap: slot 0, dirty-logging flag, base `guest_addr`, size
`mem_size`. -/
def mem_region (guest_mem : Nat) : MemRegion :=
  { slot := 0
    flags := KVM_MEM_LOG_DIRTY_PAGES
    guest_phys_addr := guest_addr
    memory_size := mem_size
    userspace_addr := guest_mem }

/-- Observable host-side effects of the VMM's lifecycle operations. -/
inductive HostEvent where
  | mmapEv (addr size : Nat)
  | munmapEv (addr size : Nat)
  | setMemRegionEv (r : MemRegion)
  | createVcpuEv (idx : Nat)
  | setSregsEv
  | setRegsEv
  | vcpuRunEv
deriving DecidableEq

/-- Success/failure of each fallible host primitive `Vmm::new` invokes, plus
the address mmap would return; the embedding of `Vmm::new` is a function of
this record. -/
structure Host where
  kvm_ok : Bool
  create_vm_ok : Bool
  mmap_ok : Bool
  mmap_addr : Nat
  set_mem_ok : Bool
  create_vcpu_ok : Bool
deriving DecidableEq

/-- The error a step of `Vmm::new` propagates (which `?` fired). -/
inductive VmmError where
  | kvmOpenFailed
  | createVmFailed
  | allocFailed
  | setMemFailed
  | createVcpuFailed
deriving DecidableEq

/-- The resource-relevant fields of the constructed `Vmm` struct. -/
structure VmmRes where
  guest_mem : Nat
  mem_size : Nat
deriving DecidableEq

/-- Embedding of `Vmm::new`: open KVM, create VM, mmap `mem_size` bytes,
register the memory region, create vCPU 0. Each failing step returns its
error via `?` exactly as the source does; note that on the error paths after
mmap succeeded, the source holds only a raw pointer and no `Vmm` struct
exists yet, so no munmap occurs before propagation (the trace records what
actually happens). -/
def vmmNew (h : Host) : Except VmmError VmmRes × List HostEvent :=
  if h.kvm_ok = false then (Except.error VmmError.kvmOpenFailed, [])
  else if h.create_vm_ok = false then (Except.error VmmError.createVmFailed, [])
  else if h.mmap_ok = false then (Except.error VmmError.allocFailed, [])
  else
    let tr1 := [HostEvent.mmapEv h.mmap_addr mem_size]
    if h.set_mem_ok = false then (Except.error VmmError.setMemFailed, tr1)
    else
      let tr2 := tr1 ++ [HostEvent.setMemRegionEv (mem_region h.mmap_addr)]
      if h.create_vcpu_ok = false then (Except.error VmmError.createVcpuFailed, tr2)
      else (Except.ok { guest_mem := h.mmap_addr, mem_size := mem_size },
            tr2 ++ [HostEvent.createVcpuEv 0])

/-- Embedding of `Vmm::cleanup`: unconditionally issue
`munmap(self.guest_mem, self.mem_size)`; the return value of munmap is
discarded and no guard flag exists, so every invocation appends a munmap. -/
def cleanup (v : VmmRes) (tr : List HostEvent) : List HostEvent :=
  tr ++ [HostEvent.munmapEv v.guest_mem v.mem_size]

/-- Embedding of `Drop for Vmm`: `drop` calls `self.cleanup()`. -/
def dropVmm (v : VmmRes) (tr : List HostEvent) : List HostEvent :=
  cleanup v tr

/-- Embedding of `main`: construct the Vmm with `?` propagation; the calls to
`setup_vcpu` and `run` are commented out in the source, so on success the only
further effect is the implicit `Drop` at scope exit. -/
def mainFn (h : Host) : Except VmmError Unit × List HostEvent :=
  match vmmNew h with
  | (Except.error e, tr) => (Except.error e, tr)
  | (Except.ok v, tr) => (Except.ok (), dropVmm v tr)

/-- True exactly on events that belong to guest-execution setup or execution
(`set_sregs`, `set_regs`, `vcpu.run`). -/
def isGuestExecEv : HostEvent → Bool
  | HostEvent.setSregsEv => true
  | HostEvent.setRegsEv => true
  | HostEvent.vcpuRunEv => true
  | _ => false

/-- True exactly on munmap events. -/
def isMunmapEv : HostEvent → Bool
  | HostEvent.munmapEv _ _ => true
  | _ => false

/-- Exit reasons the `match` in `Vmm::run` distinguishes: `Hlt`,
`IoIn(addr, data)`, `IoOut(addr, data)`, and the catch-all `unexpected` arm. -/
inductive VcpuExit where
  | Hlt
  | IoIn (port : Nat) (data : List Nat)
  | IoOut (port : Nat) (data : List Nat)
  | Unexpected (desc : Nat)
deriving DecidableEq

/-- Result of one `self.vcpu.run()` invocation: an exit, or a host error. -/
inductive VcpuRunResult where
  | ok (e : VcpuExit)
  | err (cause : Nat)
deriving DecidableEq

/-- State of the exit-dispatch loop: Running while the loop continues;
Halted when it breaks out of the `Hlt` arm; Aborted when it breaks out of
the `unexpected` arm or the `Err` arm. -/
inductive LoopState where
  | Running
  | Halted
  | Aborted
deriving DecidableEq

/-- What a call to `Vmm::run` produces, given the successive results of
`self.vcpu.run()`: the Rust return value, the state the loop ended in, how
many times `vcpu.run()` was invoked, and how many times the
`vCPU run failed` report was printed. -/
structure RunOutcome where
  ret : Except Nat Unit
  final : LoopState
  invocations : Nat
  errorReports : Nat

/-- Embedding of `Vmm::run`: loop over `self.vcpu.run()` results; `Hlt`
breaks, `IoIn`/`IoOut` print and continue, any other exit breaks, `Err`
prints the failure once and breaks; after the loop the function returns
`Ok(())` on every path. The argument list is the sequence of results the
vCPU produces; if it is exhausted the loop is still Running. -/
def runVmm : List VcpuRunResult → RunOutcome
  | [] => { ret := Except.ok (), final := LoopState.Running,
            invocations := 0, errorReports := 0 }
  | r :: rest =>
    match r with
    | VcpuRunResult.ok VcpuExit.Hlt =>
        { ret := Except.ok (), final := LoopState.Halted,
          invocations := 1, errorReports := 0 }
    | VcpuRunResult.ok (VcpuExit.IoIn _ _) =>
        let o := runVmm rest
        { o with invocations := o.invocations + 1 }
    | VcpuRunResult.ok (VcpuExit.IoOut _ _) =>
        let o := runVmm rest
        { o with invocations := o.invocations + 1 }
    | VcpuRunResult.ok (VcpuExit.Unexpected _) =>
        { ret := Except.ok (), final := LoopState.Aborted,
          invocations := 1, errorReports := 0 }
    | VcpuRunResult.err _ =>
        { ret := Except.ok (), final := LoopState.Aborted,
          invocations := 1, errorReports := 1 }

/-- True exactly on the run results whose arm does not break the loop
(`IoIn` and `IoOut`). -/
def continues : VcpuRunResult → Bool
  | VcpuRunResult.ok (VcpuExit.IoIn _ _) => true
  | VcpuRunResult.ok (VcpuExit.IoOut _ _) => true
  | _ => false

/-- Embedding of `kvm_segment` (fields of each segment register). -/
structure Segment where
  base : Nat
  limit : Nat
  selector : Nat
  type_ : Nat
  present : Nat
  dpl : Nat
  db : Nat
  s : Nat
  l : Nat
  g : Nat
  avl : Nat
  unusable : Nat
deriving DecidableEq

/-- Embedding of `kvm_dtable` (descriptor-table registers). -/
structure Dtable where
  base : Nat
  limit : Nat
deriving DecidableEq

/-- Embedding of `kvm_sregs` (special registers `get_sregs`/`set_sregs`
read and write). -/
structure Sregs where
  cs : Segment
  ds : Segment
  es : Segment
  fs : Segment
  gs : Segment
  ss : Segment
  tr : Segment
  ldt : Segment
  gdt : Dtable
  idt : Dtable
  cr0 : Nat
  cr2 : Nat
  cr3 : Nat
  cr4 : Nat
  cr8 : Nat
  efer : Nat
  apic_base : Nat
  interrupt_bitmap : Nat
deriving DecidableEq

/-- Embedding of `kvm_regs` (general-purpose registers `get_regs`/`set_regs`
read and write). -/
structure Regs where
  rax : Nat
  rbx : Nat
  rcx : Nat
  rdx : Nat
  rsi : Nat
  rdi : Nat
  rsp : Nat
  rbp : Nat
  r8 : Nat
  r9 : Nat
  r10 : Nat
  r11 : Nat
  r12 : Nat
  r13 : Nat
  r14 : Nat
  r15 : Nat
  rip : Nat
  rflags : Nat
deriving DecidableEq

/-- Guest memory region contents, byte at each offset from the host base. -/
def Mem : Type := Nat → Nat

/-- Raw byte copy: byte a of the result is the copied byte when
`off ≤ a < off + bytes.length`, and the old byte otherwise; no bound on the
destination is consulted. -/
def writeBytes (mem : Mem) (off : Nat) (bytes : List Nat) : Mem :=
  fun a => if off ≤ a ∧ a - off < bytes.length then bytes.getD (a - off) 0 else mem a

/-- Embedding of the code-loading copy in `setup_vcpu`:
`ptr::copy_nonoverlapping(guest_code.as_ptr(), self.guest_mem as *mut u8, guest_code.len())`,
generalized over the bytes and the byte offset from the region's host base
(the source performs it with `bytes = guest_code` and offset 0). The copy is
unchecked: it has no error path and consults no bound. -/
def loadCode (bytes : List Nat) (off : Nat) (mem : Mem) : Mem :=
  writeBytes mem off bytes

/-- Register state and memory after `setup_vcpu`. -/
structure VcpuSetupResult where
  regs : Regs
  sregs : Sregs
  mem : Mem

/-- Embedding of `Vmm::setup_vcpu` on the success path: read sregs, set
`cs.base = 0` and `cs.selector = 0`, write them back; read regs, set
`rip = 0x1000`, write them back; copy `guest_code` to the region's host
base (offset 0). -/
def setup_vcpu (regs0 : Regs) (sregs0 : Sregs) (mem0 : Mem) : VcpuSetupResult :=
  let sregs1 := { sregs0 with cs := { sregs0.cs with base := 0, selector := 0 } }
  let regs1 := { regs0 with rip := 0x1000 }
  let mem1 := loadCode guest_code code_offset mem0
  { regs := regs1, sregs := sregs1, mem := mem1 }

/-- Host behaviour in which every primitive succeeds; mmap returns 0x7000. -/
def hostAllOk : Host :=
  { kvm_ok := true, create_vm_ok := true, mmap_ok := true, mmap_addr := 0x7000,
    set_mem_ok := true, create_vcpu_ok := true }

/-- Host behaviour in which `set_user_memory_region` fails after mmap
succeeded. -/
def hostSetMemFails : Host :=
  { kvm_ok := true, create_vm_ok := true, mmap_ok := true, mmap_addr := 0x7000,
    set_mem_ok := false, create_vcpu_ok := true }

/-- Host behaviour in which `create_vcpu` fails after mmap and memory
registration succeeded. -/
def hostCreateVcpuFails : Host :=
  { kvm_ok := true, create_vm_ok := true, mmap_ok := true, mmap_addr := 0x7000,
    set_mem_ok := true, create_vcpu_ok := false }

/-- A constructed Vmm resource record, for concrete evaluation. -/
def vmm0 : VmmRes := { guest_mem := 0x7000, mem_size := mem_size }

/-- The event trace of a fully successful `Vmm::new`. -/
def successTrace : List HostEvent :=
  [HostEvent.mmapEv 0x7000 mem_size,
   HostEvent.setMemRegionEv (mem_region 0x7000),
   HostEvent.createVcpuEv 0]

/-- Zero-initialized guest memory, as mmap with MAP_ANONYMOUS provides. -/
def zeroMem : Mem := fun _ => 0

/-- C7: the constructed VMM uses exactly the specified configuration
constants: guest memory size 16 MiB (page-aligned), guest-physical load
address 0x1000, dirty-page-logging flag enabled on the region registered at
slot 0, and initial guest code [0xEB, 0xFE]. -/
theorem C7_configuration_constants :
    mem_size = 16 * 1024 * 1024 ∧
    mem_size % page_size = 0 ∧
    guest_addr = 0x1000 ∧
    (∀ a, (mem_region a).slot = 0 ∧
          (mem_region a).flags = KVM_MEM_LOG_DIRTY_PAGES ∧
          (mem_region a).flags ≠ 0 ∧
          (mem_region a).guest_phys_addr = 0x1000 ∧
          (mem_region a).memory_size = 16 * 1024 * 1024) ∧
    guest_code = [0xEB, 0xFE] ∧
    HostEvent.setMemRegionEv (mem_region 0x7000) ∈ (vmmNew hostAllOk).2 := by
  refine ⟨rfl, by decide, rfl,
    fun a => ⟨rfl, rfl, by simp [mem_region, KVM_MEM_LOG_DIRTY_PAGES], rfl, rfl⟩,
    rfl, by decide⟩

/-- C1: refuted on the code — when `set_user_memory_region` or `create_vcpu`
fails after the mmap succeeded, `Vmm::new` propagates the error with `?`
while no `Vmm` struct exists yet, so `cleanup`/`Drop` never runs and the
trace contains the mmap but no munmap: the host memory mapping is leaked,
contrary to the claim that it is released before the error propagates. -/
theorem C1_mmap_leaked_on_later_failure :
    ((vmmNew hostSetMemFails).1 = Except.error VmmError.setMemFailed ∧
     HostEvent.mmapEv 0x7000 mem_size ∈ (vmmNew hostSetMemFails).2 ∧
     ((vmmNew hostSetMemFails).2.all (fun e => !(isMunmapEv e))) = true) ∧
    ((vmmNew hostCreateVcpuFails).1 = Except.error VmmError.createVcpuFailed ∧
     HostEvent.mmapEv 0x7000 mem_size ∈ (vmmNew hostCreateVcpuFails).2 ∧
     ((vmmNew hostCreateVcpuFails).2.all (fun e => !(isMunmapEv e))) = true) := by
  exact ⟨⟨rfl, by decide, by decide⟩, ⟨rfl, by decide, by decide⟩⟩

/-- C6 counterexample: `cleanup` has no guard, so invoking it twice on the
same Vmm issues the munmap twice — it is not exactly-once. -/
theorem C6_counterexample :
    cleanup vmm0 (cleanup vmm0 []) =
      [HostEvent.munmapEv 0x7000 mem_size, HostEvent.munmapEv 0x7000 mem_size] ∧
    cleanup vmm0 (cleanup vmm0 []) ≠ [HostEvent.munmapEv 0x7000 mem_size] := by
  exact ⟨rfl, by decide⟩

/-- C6 (amended): each invocation of `cleanup` unconditionally appends
exactly one munmap of the region and returns no error (the munmap result is
discarded); `Drop` invokes it once; a second invocation issues a second
munmap on the same range rather than being a no-op. -/
theorem C6_cleanup_unconditional_per_call (v : VmmRes) (tr : List HostEvent) :
    cleanup v tr = tr ++ [HostEvent.munmapEv v.guest_mem v.mem_size] ∧
    dropVmm v tr = cleanup v tr ∧
    cleanup v (cleanup v tr) =
      tr ++ [HostEvent.munmapEv v.guest_mem v.mem_size,
             HostEvent.munmapEv v.guest_mem v.mem_size] := by
  refine ⟨rfl, rfl, ?_⟩
  simp [cleanup]

/-- C9: `main` only performs initialization (`Vmm::new`) and the implicit
teardown via `Drop`; its trace never contains a register-setup or vCPU-run
event (the `setup_vcpu` and `run` calls are commented out), so a successful
execution performs no guest code execution. -/
theorem C9_main_no_guest_execution (h : Host) :
    ((mainFn h).2.all (fun e => !(isGuestExecEv e))) = true ∧
    (∀ v tr, vmmNew h = (Except.ok v, tr) →
       mainFn h = (Except.ok (),
         tr ++ [HostEvent.munmapEv v.guest_mem v.mem_size])) := by
  constructor
  · obtain ⟨k, cv, mm, ma, sm, vc⟩ := h
    cases k <;> cases cv <;> cases mm <;> cases sm <;> cases vc <;>
      simp [mainFn, vmmNew, dropVmm, cleanup, isGuestExecEv]
  · intro v tr heq
    unfold mainFn
    rw [heq]
    simp [dropVmm, cleanup]

/-- C9 witness: the fully successful host behaviour, evaluated. -/
theorem C9_main_no_guest_execution_witness :
    mainFn hostAllOk
      = (Except.ok (), successTrace ++ [HostEvent.munmapEv 0x7000 mem_size]) :=
  (C9_main_no_guest_execution hostAllOk).2
    { guest_mem := 0x7000, mem_size := mem_size } successTrace rfl

/-- C2: the exit dispatcher, started Running, reaches Halted exactly on a
`Hlt` exit, stays Running on every `IoIn`/`IoOut` exit (re-invoking
`vcpu.run()` on the remaining results), leaves the loop (Aborted) on any
other exit kind or on a run error, and on the sequence
[IoOut, IoIn, Hlt] is still Running after the first two results and Halted
after the third, for all ports and payloads. -/
theorem C2_exit_dispatcher :
    (∀ r, (runVmm [r]).final = LoopState.Halted ↔ r = VcpuRunResult.ok VcpuExit.Hlt) ∧
    (∀ rest, (runVmm (VcpuRunResult.ok VcpuExit.Hlt :: rest)).final = LoopState.Halted ∧
             (runVmm (VcpuRunResult.ok VcpuExit.Hlt :: rest)).invocations = 1) ∧
    (∀ p d rest,
       (runVmm (VcpuRunResult.ok (VcpuExit.IoIn p d) :: rest)).final
         = (runVmm rest).final ∧
       (runVmm (VcpuRunResult.ok (VcpuExit.IoIn p d) :: rest)).invocations
         = (runVmm rest).invocations + 1 ∧
       (runVmm (VcpuRunResult.ok (VcpuExit.IoOut p d) :: rest)).final
         = (runVmm rest).final ∧
       (runVmm (VcpuRunResult.ok (VcpuExit.IoOut p d) :: rest)).invocations
         = (runVmm rest).invocations + 1) ∧
    (∀ d rest,
       (runVmm (VcpuRunResult.ok (VcpuExit.Unexpected d) :: rest)).final
         = LoopState.Aborted ∧
       (runVmm (VcpuRunResult.ok (VcpuExit.Unexpected d) :: rest)).invocations = 1) ∧
    (∀ c rest,
       (runVmm (VcpuRunResult.err c :: rest)).final = LoopState.Aborted ∧
       (runVmm (VcpuRunResult.err c :: rest)).invocations = 1) ∧
    (∀ p1 d1 p2 d2,
       (runVmm [VcpuRunResult.ok (VcpuExit.IoOut p1 d1)]).final
         = LoopState.Running ∧
       (runVmm [VcpuRunResult.ok (VcpuExit.IoOut p1 d1),
                VcpuRunResult.ok (VcpuExit.IoIn p2 d2)]).final
         = LoopState.Running ∧
       (runVmm [VcpuRunResult.ok (VcpuExit.IoOut p1 d1),
                VcpuRunResult.ok (VcpuExit.IoIn p2 d2),
                VcpuRunResult.ok VcpuExit.Hlt]).final
         = LoopState.Halted) := by
  refine ⟨?_, fun rest => ⟨rfl, rfl⟩,
          fun p d rest => ⟨rfl, rfl, rfl, rfl⟩,
          fun d rest => ⟨rfl, rfl⟩,
          fun c rest => ⟨rfl, rfl⟩,
          fun p1 d1 p2 d2 => ⟨rfl, rfl, rfl⟩⟩
  intro r
  cases r with
  | ok e => cases e <;> simp [runVmm]
  | err c => simp [runVmm]

/-- C3 counterexample: `Vmm::run` returns `Ok(())` both after a clean halt
and after a vCPU run error, so its return value does not distinguish which
terminal state the loop reached, nor carry the fault cause. -/
theorem C3_counterexample :
    (runVmm [VcpuRunResult.ok VcpuExit.Hlt]).ret
      = (runVmm [VcpuRunResult.err 7]).ret ∧
    (runVmm [VcpuRunResult.ok VcpuExit.Hlt]).final
      ≠ (runVmm [VcpuRunResult.err 7]).final := by
  exact ⟨rfl, by decide⟩

/-- C3 (amended): `Vmm::run` always returns `Ok(())` — it terminates the
loop on a vCPU fault or unhandled exit and returns normally (no panic or
process abort), but it reports the fault cause only via a log line and its
return value distinguishes neither terminal state nor cause. -/
theorem C3_run_always_returns_ok :
    (∀ rs, (runVmm rs).ret = Except.ok ()) ∧
    (∀ c rest,
       (runVmm (VcpuRunResult.err c :: rest)).final = LoopState.Aborted ∧
       (runVmm (VcpuRunResult.err c :: rest)).errorReports = 1 ∧
       (runVmm (VcpuRunResult.err c :: rest)).ret = Except.ok ()) ∧
    (∀ d rest,
       (runVmm (VcpuRunResult.ok (VcpuExit.Unexpected d) :: rest)).final
         = LoopState.Aborted ∧
       (runVmm (VcpuRunResult.ok (VcpuExit.Unexpected d) :: rest)).ret
         = Except.ok ()) := by
  refine ⟨?_, fun c rest => ⟨rfl, rfl, rfl⟩, fun d rest => ⟨rfl, rfl⟩⟩
  intro rs
  induction rs with
  | nil => rfl
  | cons r rest ih =>
    cases r with
    | ok e =>
      cases e with
      | Hlt => rfl
      | IoIn p d => exact ih
      | IoOut p d => exact ih
      | Unexpected d => rfl
    | err c => rfl

/-- Sample continuing run results for concrete evaluation. -/
def samplePre : List VcpuRunResult := [VcpuRunResult.ok (VcpuExit.IoOut 0x3F8 [65])]

/-- Sample results that would follow an error, never consumed. -/
def sampleRest : List VcpuRunResult := [VcpuRunResult.ok VcpuExit.Hlt]

/-- C8: if every result before an error keeps the loop running (IoIn/IoOut),
then on the error the loop reports the failure exactly once, performs no
further `vcpu.run()` invocation (total invocations = prior results + 1,
whatever results would follow), and ends Aborted: no host failure is
retried. -/
theorem C8_error_reported_once_not_retried (pre rest : List VcpuRunResult)
    (c : Nat) (h : pre.all continues = true) :
    (runVmm (pre ++ VcpuRunResult.err c :: rest)).invocations = pre.length + 1 ∧
    (runVmm (pre ++ VcpuRunResult.err c :: rest)).errorReports = 1 ∧
    (runVmm (pre ++ VcpuRunResult.err c :: rest)).final = LoopState.Aborted := by
  induction pre with
  | nil => exact ⟨rfl, rfl, rfl⟩
  | cons r rs ih =>
    rw [List.all_cons, Bool.and_eq_true] at h
    obtain ⟨hinv, hrep, hfin⟩ := ih h.2
    cases r with
    | ok e =>
      cases e with
      | Hlt => simp [continues] at h
      | IoIn p d =>
        refine ⟨?_, hrep, hfin⟩
        show (runVmm (rs ++ VcpuRunResult.err c :: rest)).invocations + 1
          = rs.length + 1 + 1
        rw [hinv]
      | IoOut p d =>
        refine ⟨?_, hrep, hfin⟩
        show (runVmm (rs ++ VcpuRunResult.err c :: rest)).invocations + 1
          = rs.length + 1 + 1
        rw [hinv]
      | Unexpected d => simp [continues] at h
    | err c2 => simp [continues] at h

/-- C8 witness: one IoOut result, then an error, then a would-be Hlt. -/
theorem C8_error_reported_once_not_retried_witness :
    samplePre.all continues = true ∧
    (runVmm (samplePre ++ VcpuRunResult.err 5 :: sampleRest)).invocations
      = samplePre.length + 1 ∧
    (runVmm (samplePre ++ VcpuRunResult.err 5 :: sampleRest)).errorReports = 1 ∧
    (runVmm (samplePre ++ VcpuRunResult.err 5 :: sampleRest)).final
      = LoopState.Aborted :=
  ⟨by decide, C8_error_reported_once_not_retried samplePre sampleRest 5 (by decide)⟩

/-- A byte inside the copied range reads back as the copied byte. -/
theorem writeBytes_getD (mem : Mem) (off : Nat) (bytes : List Nat) (i : Nat)
    (h : i < bytes.length) :
    writeBytes mem off bytes (off + i) = bytes.getD i 0 := by
  unfold writeBytes
  rw [if_pos (by omega)]
  have hi : off + i - off = i := by omega
  rw [hi]

/-- A byte outside the copied range is unchanged by the copy. -/
theorem writeBytes_frame (mem : Mem) (off : Nat) (bytes : List Nat) (a : Nat)
    (h : a < off ∨ off + bytes.length ≤ a) :
    writeBytes mem off bytes a = mem a := by
  unfold writeBytes
  rw [if_neg (by omega)]

/-- C4: after `setup_vcpu`, the instruction pointer is 0x1000, which is the
guest-physical address of the loaded code (region base `guest_addr` plus the
copy offset 0), the code segment is the flat configuration base = 0 and
selector = 0, the effective fetch address cs.base + rip equals the code's
guest-physical address, and the code bytes are in place at that offset. -/
theorem C4_rip_matches_loaded_code (regs0 : Regs) (sregs0 : Sregs) (mem0 : Mem) :
    (setup_vcpu regs0 sregs0 mem0).regs.rip = 0x1000 ∧
    guest_addr + code_offset = (setup_vcpu regs0 sregs0 mem0).regs.rip ∧
    (setup_vcpu regs0 sregs0 mem0).sregs.cs.base = 0 ∧
    (setup_vcpu regs0 sregs0 mem0).sregs.cs.selector = 0 ∧
    (setup_vcpu regs0 sregs0 mem0).sregs.cs.base
        + (setup_vcpu regs0 sregs0 mem0).regs.rip
      = guest_addr + code_offset ∧
    (setup_vcpu regs0 sregs0 mem0).mem code_offset = 0xEB ∧
    (setup_vcpu regs0 sregs0 mem0).mem (code_offset + 1) = 0xFE := by
  refine ⟨rfl, rfl, rfl, rfl, rfl, ?_, ?_⟩
  · have := writeBytes_getD mem0 code_offset guest_code 0 (by decide)
    simpa [setup_vcpu, loadCode, guest_code] using this
  · have := writeBytes_getD mem0 code_offset guest_code 1 (by decide)
    simpa [setup_vcpu, loadCode, guest_code] using this

/-- C5 counterexample: the copy embedded from `setup_vcpu` is unchecked — at
offset `mem_size` (so offset + length exceeds the region size) it does not
fail with a bounds error; it writes the first byte past the region's end
(the previously zero byte at offset `mem_size` becomes 0xEB). -/
theorem C5_counterexample :
    mem_size < mem_size + guest_code.length ∧
    zeroMem mem_size = 0 ∧
    loadCode guest_code mem_size zeroMem mem_size = 0xEB := by
  refine ⟨by decide, rfl, ?_⟩
  have := writeBytes_getD zeroMem mem_size guest_code 0 (by decide)
  simpa [loadCode, guest_code] using this

/-- C5 (amended): the code-loading copy has no error path; under the
precondition offset + length ≤ region size it copies exactly the given
bytes at that offset, every written address lies inside the region, and all
other bytes are unchanged; when the precondition fails it does not produce
a bounds error but writes past the region's end instead. -/
theorem C5_loadCode_exact_copy_in_bounds (bytes : List Nat) (off : Nat)
    (mem : Mem) (h : off + bytes.length ≤ mem_size) :
    (∀ i, i < bytes.length → loadCode bytes off mem (off + i) = bytes.getD i 0) ∧
    (∀ i, i < bytes.length → off + i < mem_size) ∧
    (∀ a, a < off ∨ off + bytes.length ≤ a → loadCode bytes off mem a = mem a) :=
  ⟨fun i hi => writeBytes_getD mem off bytes i hi,
   fun i hi => by omega,
   fun a ha => writeBytes_frame mem off bytes a ha⟩

/-- C5 witness: the source's actual call — guest_code at offset 0 into the
16 MiB region — satisfies the precondition and reads back exactly. -/
theorem C5_loadCode_exact_copy_in_bounds_witness :
    (0 + guest_code.length ≤ mem_size) ∧
    loadCode guest_code 0 zeroMem (0 + 0) = guest_code.getD 0 0 ∧
    (0 + 1 < mem_size) ∧
    loadCode guest_code 0 zeroMem 5 = zeroMem 5 :=
  ⟨by decide,
   (C5_loadCode_exact_copy_in_bounds guest_code 0 zeroMem (by decide)).1 0 (by decide),
   (C5_loadCode_exact_copy_in_bounds guest_code 0 zeroMem (by decide)).2.1 1 (by decide),
   (C5_loadCode_exact_copy_in_bounds guest_code 0 zeroMem (by decide)).2.2 5
     (Or.inr (by decide))⟩

/-- Concrete general-purpose register file for evaluation. -/
def sampleRegs : Regs :=
  { rax := 1, rbx := 2, rcx := 3, rdx := 4, rsi := 5, rdi := 6, rsp := 7,
    rbp := 8, r8 := 9, r9 := 10, r10 := 11, r11 := 12, r12 := 13, r13 := 14,
    r14 := 15, r15 := 16, rip := 17, rflags := 18 }

/-- Concrete segment register value for evaluation. -/
def sampleSeg : Segment :=
  { base := 100, limit := 101, selector := 102, type_ := 103, present := 104,
    dpl := 105, db := 106, s := 107, l := 108, g := 109, avl := 110,
    unusable := 111 }

/-- Concrete special register file for evaluation. -/
def sampleSregs : Sregs :=
  { cs := sampleSeg, ds := sampleSeg, es := sampleSeg, fs := sampleSeg,
    gs := sampleSeg, ss := sampleSeg, tr := sampleSeg, ldt := sampleSeg,
    gdt := { base := 200, limit := 201 }, idt := { base := 202, limit := 203 },
    cr0 := 300, cr2 := 301, cr3 := 302, cr4 := 303, cr8 := 304, efer := 305,
    apic_base := 306, interrupt_bitmap := 307 }

/-- C10: `setup_vcpu` is read-modify-write — every general-purpose register
except rip, every special register except cs, and every cs field except base
and selector, is written back exactly as read; and of the memory only the
first `guest_code.length` (= 2) bytes are written, every other byte of the
region being unchanged. -/
theorem C10_setup_vcpu_frame (regs0 : Regs) (sregs0 : Sregs) (mem0 : Mem) :
    ((setup_vcpu regs0 sregs0 mem0).regs.rax = regs0.rax ∧
     (setup_vcpu regs0 sregs0 mem0).regs.rbx = regs0.rbx ∧
     (setup_vcpu regs0 sregs0 mem0).regs.rcx = regs0.rcx ∧
     (setup_vcpu regs0 sregs0 mem0).regs.rdx = regs0.rdx ∧
     (setup_vcpu regs0 sregs0 mem0).regs.rsi = regs0.rsi ∧
     (setup_vcpu regs0 sregs0 mem0).regs.rdi = regs0.rdi ∧
     (setup_vcpu regs0 sregs0 mem0).regs.rsp = regs0.rsp ∧
     (setup_vcpu regs0 sregs0 mem0).regs.rbp = regs0.rbp ∧
     (setup_vcpu regs0 sregs0 mem0).regs.r8 = regs0.r8 ∧
     (setup_vcpu regs0 sregs0 mem0).regs.r9 = regs0.r9 ∧
     (setup_vcpu regs0 sregs0 mem0).regs.r10 = regs0.r10 ∧
     (setup_vcpu regs0 sregs0 mem0).regs.r11 = regs0.r11 ∧
     (setup_vcpu regs0 sregs0 mem0).regs.r12 = regs0.r12 ∧
     (setup_vcpu regs0 sregs0 mem0).regs.r13 = regs0.r13 ∧
     (setup_vcpu regs0 sregs0 mem0).regs.r14 = regs0.r14 ∧
     (setup_vcpu regs0 sregs0 mem0).regs.r15 = regs0.r15 ∧
     (setup_vcpu regs0 sregs0 mem0).regs.rflags = regs0.rflags) ∧
    ((setup_vcpu regs0 sregs0 mem0).sregs.ds = sregs0.ds ∧
     (setup_vcpu regs0 sregs0 mem0).sregs.es = sregs0.es ∧
     (setup_vcpu regs0 sregs0 mem0).sregs.fs = sregs0.fs ∧
     (setup_vcpu regs0 sregs0 mem0).sregs.gs = sregs0.gs ∧
     (setup_vcpu regs0 sregs0 mem0).sregs.ss = sregs0.ss ∧
     (setup_vcpu regs0 sregs0 mem0).sregs.tr = sregs0.tr ∧
     (setup_vcpu regs0 sregs0 mem0).sregs.ldt = sregs0.ldt ∧
     (setup_vcpu regs0 sregs0 mem0).sregs.gdt = sregs0.gdt ∧
     (setup_vcpu regs0 sregs0 mem0).sregs.idt = sregs0.idt ∧
     (setup_vcpu regs0 sregs0 mem0).sregs.cr0 = sregs0.cr0 ∧
     (setup_vcpu regs0 sregs0 mem0).sregs.cr2 = sregs0.cr2 ∧
     (setup_vcpu regs0 sregs0 mem0).sregs.cr3 = sregs0.cr3 ∧
     (setup_vcpu regs0 sregs0 mem0).sregs.cr4 = sregs0.cr4 ∧
     (setup_vcpu regs0 sregs0 mem0).sregs.cr8 = sregs0.cr8 ∧
     (setup_vcpu regs0 sregs0 mem0).sregs.efer = sregs0.efer ∧
     (setup_vcpu regs0 sregs0 mem0).sregs.apic_base = sregs0.apic_base ∧
     (setup_vcpu regs0 sregs0 mem0).sregs.interrupt_bitmap
       = sregs0.interrupt_bitmap) ∧
    ((setup_vcpu regs0 sregs0 mem0).sregs.cs.limit = sregs0.cs.limit ∧
     (setup_vcpu regs0 sregs0 mem0).sregs.cs.type_ = sregs0.cs.type_ ∧
     (setup_vcpu regs0 sregs0 mem0).sregs.cs.present = sregs0.cs.present ∧
     (setup_vcpu regs0 sregs0 mem0).sregs.cs.dpl = sregs0.cs.dpl ∧
     (setup_vcpu regs0 sregs0 mem0).sregs.cs.db = sregs0.cs.db ∧
     (setup_vcpu regs0 sregs0 mem0).sregs.cs.s = sregs0.cs.s ∧
     (setup_vcpu regs0 sregs0 mem0).sregs.cs.l = sregs0.cs.l ∧
     (setup_vcpu regs0 sregs0 mem0).sregs.cs.g = sregs0.cs.g ∧
     (setup_vcpu regs0 sregs0 mem0).sregs.cs.avl = sregs0.cs.avl ∧
     (setup_vcpu regs0 sregs0 mem0).sregs.cs.unusable = sregs0.cs.unusable) ∧
    (∀ a, guest_code.length ≤ a → (setup_vcpu regs0 sregs0 mem0).mem a = mem0 a) := by
  refine ⟨⟨rfl, rfl, rfl, rfl, rfl, rfl, rfl, rfl, rfl, rfl, rfl, rfl, rfl,
           rfl, rfl, rfl, rfl⟩,
          ⟨rfl, rfl, rfl, rfl, rfl, rfl, rfl, rfl, rfl, rfl, rfl, rfl, rfl,
           rfl, rfl, rfl, rfl⟩,
          ⟨rfl, rfl, rfl, rfl, rfl, rfl, rfl, rfl, rfl, rfl⟩, ?_⟩
  intro a ha
  exact writeBytes_frame mem0 code_offset guest_code a
    (Or.inr (by simpa [code_offset] using ha))

/-- C10 witness: a concrete register file and zero memory; byte 100 of the
region is untouched by `setup_vcpu`. -/
theorem C10_setup_vcpu_frame_witness :
    guest_code.length ≤ 100 ∧
    (setup_vcpu sampleRegs sampleSregs zeroMem).mem 100 = zeroMem 100 :=
  ⟨by decide,
   (C10_setup_vcpu_frame sampleRegs sampleSregs zeroMem).2.2.2 100 (by decide)⟩

end VmmThreads
